import Mathlib

/-!
Shallow embedding of the youtube-uploader-cli repository: the upload
client (src/uploader.ts), the credential store (src/auth.ts), the
activity logger and the wizard state machine, together with theorems
settling the claims about them.  JavaScript numbers on the paths we
model are exact small quotients, embedded as rationals; JavaScript
truthiness of optional strings and Math.round are embedded explicitly.
-/

/-- JavaScript Math.round: rounds half toward positive infinity. -/
def jsRound (q : ℚ) : ℤ := Int.floor (q + 1/2)

/-- JavaScript truthiness of a possibly-absent string: undefined/null and
the empty string are falsy, every other string is truthy. -/
def jsTruthy : Option String → Bool
  | none => false
  | some s => !(s == "")

/-- The white-space characters String.prototype.trim strips (the ASCII
ones, which are the only ones our inputs contain). -/
def isJsSpace (c : Char) : Bool :=
  c == ' ' || c == '\t' || c == '\n' || c == '\r' || c == '\x0b' || c == '\x0c'

/-- Drops the leading white-space of a character list. -/
def trimLeadChars : List Char → List Char
  | [] => []
  | c :: rest => if isJsSpace c then trimLeadChars rest else c :: rest

/-- JavaScript String.prototype.trim: strips leading and trailing
white-space. -/
def jsTrim (s : String) : String :=
  ⟨(trimLeadChars ((trimLeadChars s.data).reverse)).reverse⟩

/-- JavaScript String.prototype.split(',') over the character list:
splitting the empty string yields one empty piece, and adjacent commas
yield empty pieces, exactly as in JavaScript. -/
def splitCommaChars : List Char → List (List Char)
  | [] => [[]]
  | c :: rest =>
    if c == ',' then [] :: splitCommaChars rest
    else
      match splitCommaChars rest with
      | [] => [[c]]
      | h :: t => (c :: h) :: t

/-- JavaScript String.prototype.split(',') on strings. -/
def jsSplitComma (s : String) : List String :=
  (splitCommaChars s.data).map (fun cs => ⟨cs⟩)

/-! ## Upload client (src/uploader.ts) -/

/-- The failure kinds of the precondition checks at the top of
uploadVideo (file not found / path is a directory / path is not a
regular file). -/
inductive UploadErrorKind where
  | fileNotFound
  | pathIsDirectory
  | pathNotRegularFile
deriving DecidableEq

/-- What fs.statSync reports about an existing path: the two predicates
uploadVideo consults. -/
structure FileInfo where
  isDirectory : Bool
  isFile : Bool
deriving DecidableEq

/-- The logger calls uploadVideo makes during its validation phase,
each carrying the file path it logs. -/
inductive LogCall where
  | uploadError (filePath : String)
  | fileValidation (filePath : String) (isValid : Bool)
  | metadataValidation (isValid : Bool)
  | uploadStart (filePath : String)
deriving DecidableEq

/-- Outcome of the validation phase of uploadVideo. -/
inductive PrecheckOutcome where
  | failed (kind : UploadErrorKind)
  | passed
deriving DecidableEq

/-- Result of uploadVideo up to (and excluding) the platform call:
outcome, the log calls emitted, and whether control reached the
youtube.videos.insert network call. -/
structure PrecheckResult where
  outcome : PrecheckOutcome
  logs : List LogCall
  networkCalled : Bool
deriving DecidableEq

/-- The validation phase of uploadVideo (src/uploader.ts lines 21-49):
existsSync first, then statSync.isDirectory, then statSync.isFile; each
failure logs the path via logUploadError and throws before the network
call; on success the validation/start events are logged and control
proceeds to youtube.videos.insert.  The path's file-system state is the
second argument: none when the path does not exist. -/
def uploadPrecheck (filePath : String) (st : Option FileInfo) : PrecheckResult :=
  match st with
  | none => ⟨.failed .fileNotFound, [.uploadError filePath], false⟩
  | some info =>
    if info.isDirectory then
      ⟨.failed .pathIsDirectory, [.uploadError filePath], false⟩
    else if !info.isFile then
      ⟨.failed .pathNotRegularFile, [.uploadError filePath], false⟩
    else
      ⟨.passed, [.fileValidation filePath true, .metadataValidation true, .uploadStart filePath], true⟩

/-- The value the onUploadProgress handler passes to the caller-supplied
onProgress (src/uploader.ts line 85): (evt.bytesRead / fileSize) * 100. -/
def uploadProgressValue (bytesRead fileSize : ℚ) : ℚ :=
  bytesRead / fileSize * 100

/-- Modelled from the spec's words: the progressFraction
bytesSent / fileSizeBytes (a value in 0.0-1.0), stated for comparison
with uploadProgressValue, which is what the code actually forwards. -/
def progressFractionSpec (bytesSent fileSizeBytes : ℚ) : ℚ :=
  bytesSent / fileSizeBytes

/-- The error object the platform callback may receive, with the fields
uploadVideo reads (err.code, err.status, err.message). -/
structure ApiErr where
  code : Int
  status : Int
  message : String
deriving DecidableEq

/-- The data object of a platform response; its id field may be absent. -/
structure RespData where
  id : Option String
deriving DecidableEq

/-- A platform response; its data field may be absent. -/
structure Response where
  data : Option RespData
deriving DecidableEq

/-- How the promise returned by uploadVideo settles. -/
inductive UploadCompletion where
  | rejectedApi (e : ApiErr)
  | resolved (videoId : String)
  | rejectedNoVideoId (message : String)
deriving DecidableEq

/-- The completion callback of uploadVideo (src/uploader.ts lines
90-123): an error rejects with the error object itself; otherwise the
truthiness test response?.data?.id decides between resolving with the
id and rejecting with the no-video-id error.  An empty-string id is
falsy in JavaScript, so it takes the rejection branch. -/
def completionHandler (err : Option ApiErr) (response : Option Response) : UploadCompletion :=
  match err with
  | some e => .rejectedApi e
  | none =>
    let chained := (response.bind (fun r => r.data)).bind (fun d => d.id)
    if jsTruthy chained then
      .resolved (chained.getD "")
    else
      .rejectedNoVideoId "Upload failed: No video ID returned"

/-! ## Wizard state machine (the ink UI source file) -/

/-- The wizard steps, one per string constant of the UI source. -/
inductive Step where
  | mainMenu
  | help
  | login
  | authenticating
  | fileInputMethod
  | enterFilePath
  | selectFiles
  | enterTitle
  | enterDesc
  | enterTags
  | selectPrivacy
  | confirmUpload
  | uploading
  | success
  | error
deriving DecidableEq

/-- Tag parsing of handleTagsChange:
tags.split(',').map(t => t.trim()).filter(Boolean). -/
def parseTags (s : String) : List String :=
  ((jsSplitComma s).map jsTrim).filter (fun t => !(t == ""))

/-- Outcome of fs.realpathSync inside validateAndSelectFile. -/
inductive RealpathResult where
  | resolved (p : String)
  | failed (message : String)
deriving DecidableEq

/-- The file-system view validateAndSelectFile consults for the
submitted path: existsSync and realpathSync. -/
structure FsView where
  pathExists : Bool
  realpath : RealpathResult
deriving DecidableEq

/-- Result of submitting in the EnterFilePath step: the next step, the
error message set (if any), and whether any file-system call
(existsSync / realpathSync) was made. -/
structure FilePathSubmitResult where
  step : Step
  errorMsg : Option String
  fsChecked : Bool
deriving DecidableEq

/-- validateAndSelectFile of the UI source: existsSync, then
realpathSync (whose failure is caught and routed to Error). -/
def validateAndSelectFile (fs : FsView) : FilePathSubmitResult :=
  if !fs.pathExists then
    ⟨.error, some "File does not exist", true⟩
  else
    match fs.realpath with
    | .resolved _ => ⟨.enterTitle, none, true⟩
    | .failed msg => ⟨.error, some msg, true⟩

/-- The onSubmit handler of the EnterFilePath step: a falsy or
whitespace-only filePath routes to Error with the fixed message and
never touches the file system; otherwise validateAndSelectFile runs. -/
def handleFilePathSubmit (filePath : Option String) (fs : FsView) : FilePathSubmitResult :=
  if !(jsTruthy filePath) || jsTrim (filePath.getD "") == "" then
    ⟨.error, some "Please enter a file path", false⟩
  else
    validateAndSelectFile fs

/-- What the UPLOADING case of renderStep shows: the rounded percent of
the readout, and the filled and empty cell counts of the 20-cell bar. -/
structure UploadingRender where
  percent : ℤ
  filledCells : ℤ
  emptyCells : ℤ
deriving DecidableEq

/-- The UPLOADING render (UI source lines 331-339):
Math.round(progress) percent, a bar of Math.round(progress / 5) filled
cells and 20 - Math.round(progress / 5) empty cells, where progress is
the value stored by the onProgress callback. -/
def renderUploading (progress : ℚ) : UploadingRender :=
  ⟨jsRound progress, jsRound (progress / 5), 20 - jsRound (progress / 5)⟩

/-- The slice of the wizard's AppState that handleUpload touches. -/
structure AppState where
  step : Step
  filePath : Option String
  title : Option String
  progress : ℚ
  loading : Bool
  errorMsg : Option String
deriving DecidableEq

/-- Result of the synchronous gate of handleUpload: the updated state
and whether the upload pipeline (the try block calling authorize and
then uploadVideo) was entered. -/
structure UploadGateResult where
  state : AppState
  startedUploadPipeline : Bool
deriving DecidableEq

/-- The gate of handleUpload (UI source lines 161-166): a falsy
filePath or title only sets the error message and returns; otherwise
loading is set, the step becomes UPLOADING, the error is cleared and
the authorize/uploadVideo pipeline starts. -/
def handleUploadGate (s : AppState) : UploadGateResult :=
  if !(jsTruthy s.filePath) || !(jsTruthy s.title) then
    ⟨⟨s.step, s.filePath, s.title, s.progress, s.loading, some "Missing required fields"⟩, false⟩
  else
    ⟨⟨.uploading, s.filePath, s.title, s.progress, true, none⟩, true⟩

/-! ## Credential store (src/auth.ts) -/

/-- The token bundle of the cache file, with the fields the spec names
(access token, refresh token, expiry). -/
structure Credentials where
  accessToken : String
  refreshToken : String
  expiryDate : Int
deriving DecidableEq

/-- State of the token cache file when authorize runs: absent,
unparseable (JSON.parse throws), parsed to a falsy value, or parsed to
a token bundle. -/
inductive CacheState where
  | absent
  | malformed
  | parsedNull
  | parsed (c : Credentials)
deriving DecidableEq

/-- Outcome of the interactive consent flow, were it to run: failure,
or a client whose credentials field may still be unset. -/
inductive FlowResult where
  | failure (message : String)
  | successWith (c : Option Credentials)
deriving DecidableEq

/-- The environment authorize reads: the cache state, whether the app
credentials descriptor exists in the working directory, and what the
interactive flow would yield. -/
structure AuthEnv where
  cache : CacheState
  credentialsFileExists : Bool
  flow : FlowResult
deriving DecidableEq

/-- How authorize settles. -/
inductive AuthOutcome where
  | ok (c : Credentials)
  | authError (message : String)
deriving DecidableEq

/-- Result of authorize: its outcome, whether the interactive consent
flow was triggered, and whether the cache file was written. -/
structure AuthResult where
  outcome : AuthOutcome
  flowTriggered : Bool
  cacheWritten : Bool
deriving DecidableEq

/-- authorize (src/auth.ts lines 13-65): when the cache file exists its
parsed content is returned directly, with no expiry or validity check
and no consent flow (a malformed or null cache throws, still without
the flow); when absent, the app-credentials descriptor is required and
the interactive flow runs, persisting the obtained tokens. -/
def authorize (env : AuthEnv) : AuthResult :=
  match env.cache with
  | .parsed c => ⟨.ok c, false, false⟩
  | .parsedNull => ⟨.authError "No valid credentials found. Run auth flow first.", false, false⟩
  | .malformed => ⟨.authError "JSON parse error", false, false⟩
  | .absent =>
    if !env.credentialsFileExists then
      ⟨.authError "Credentials file not found", false, false⟩
    else
      match env.flow with
      | .failure msg => ⟨.authError msg, true, false⟩
      | .successWith none => ⟨.authError "No valid credentials found. Run auth flow first.", true, false⟩
      | .successWith (some c) => ⟨.ok c, true, true⟩

/-! ## Activity logger (the logger source file) -/

/-- The four log levels with their severity numbers. -/
inductive LogLevel where
  | DEBUG
  | INFO
  | WARN
  | ERROR
deriving DecidableEq

/-- The numeric severity of a level (the levels record of shouldLog). -/
def levelNum : LogLevel → Nat
  | .DEBUG => 0
  | .INFO => 1
  | .WARN => 2
  | .ERROR => 3

/-- The level's name as printed in the log line. -/
def levelName : LogLevel → String
  | .DEBUG => "DEBUG"
  | .INFO => "INFO"
  | .WARN => "WARN"
  | .ERROR => "ERROR"

/-- Logger.shouldLog: the entry's level must be at least the threshold. -/
def shouldLog (level threshold : LogLevel) : Bool :=
  decide (levelNum threshold ≤ levelNum level)

/-- A log entry as the Logger builds it; metadata is an ordered list of
string key-value pairs, modelling the JSON object. -/
structure LogEntry where
  timestamp : String
  level : LogLevel
  message : String
  metadata : List (String × String)
  stack : Option String
deriving DecidableEq

/-- A JSON string literal (the keys and values we model need no
escaping). -/
def jsonStr (s : String) : String := "\"" ++ s ++ "\""

/-- JSON.stringify of the metadata object. -/
def jsonObj (m : List (String × String)) : String :=
  "\x7b" ++ String.intercalate "," (m.map (fun p => jsonStr p.1 ++ ":" ++ jsonStr p.2)) ++ "\x7d"

/-- JavaScript object spread: the keys of a in order, values overridden
by b where shared, then the keys of b not in a. -/
def jsSpread (a b : List (String × String)) : List (String × String) :=
  a.map (fun p =>
    match b.find? (fun q => q.1 == p.1) with
    | some q => (p.1, q.2)
    | none => p) ++
  b.filter (fun q => !(a.any (fun p => p.1 == q.1)))

/-- Logger.formatLogEntry: the bracketed base line; when metadata is
nonempty, the JSON object follows on the same line and the function
returns there, so the stack branch below is reached only for entries
with empty metadata. -/
def formatLogEntry (e : LogEntry) : String :=
  let baseLog := "[" ++ e.timestamp ++ "] [" ++ levelName e.level ++ "] " ++ e.message
  if !e.metadata.isEmpty then
    baseLog ++ " " ++ jsonObj e.metadata
  else
    match e.stack with
    | some st => baseLog ++ "\n" ++ st
    | none => baseLog

/-- The JavaScript Error object as Logger.error reads it. -/
structure JsError where
  message : String
  name : String
  stack : Option String
deriving DecidableEq

/-- The entry Logger.error builds: an Error argument adds errorMessage
and errorName to the metadata (so the metadata is never empty then) and
carries the stack. -/
def errorEntry (ts message : String) (err : Option JsError) (metadata : List (String × String)) : LogEntry :=
  match err with
  | some e =>
    ⟨ts, .ERROR, message, jsSpread metadata [("errorMessage", e.message), ("errorName", e.name)], e.stack⟩
  | none => ⟨ts, .ERROR, message, metadata, none⟩

/-- Logger.error followed by writeToFile: the line appended to the
current day's log file (none when suppressed by the threshold). -/
def errorLog (threshold : LogLevel) (ts message : String) (err : Option JsError) (metadata : List (String × String)) : Option String :=
  if shouldLog .ERROR threshold then
    some (formatLogEntry (errorEntry ts message err metadata) ++ "\n")
  else
    none

/-- A file of the logs directory as archiveOldLogs sees it: its name
and its age in days ((now - mtime) / 86400000, a fractional value). -/
structure DirFile where
  name : String
  ageDays : ℚ
deriving DecidableEq

/-- The archiving test of Logger.archiveOldLogs:
fileAge > daysToKeep && file.startsWith('youtube-uploader-'). -/
def shouldArchive (daysToKeep : ℚ) (f : DirFile) : Bool :=
  decide (f.ageDays > daysToKeep) && f.name.startsWith "youtube-uploader-"

/-- Logger.archiveOldLogs over the listing of the logs directory: the
files renamed into the archive subdirectory and the files left in
place. -/
def archiveOldLogs (daysToKeep : ℚ) (files : List DirFile) : List DirFile × List DirFile :=
  (files.filter (shouldArchive daysToKeep),
   files.filter (fun f => !(shouldArchive daysToKeep f)))

/-! ## Claims -/

/-- C1, counterexample: the claim says the progress callback forwards
the fraction bytesSent / fileSizeBytes (a value in 0.0-1.0) to
onProgress, but at bytesRead = 1, fileSize = 2 the code forwards 50,
not the fraction 1/2. -/
theorem uploadProgress_not_fraction :
    uploadProgressValue 1 2 = 50 ∧
    uploadProgressValue 1 2 ≠ progressFractionSpec 1 2 := by
  constructor
  · norm_num [uploadProgressValue]
  · norm_num [uploadProgressValue, progressFractionSpec]

/-- C1, amended: for every emitted chunk the callback forwards 100
times the fraction bytesSent / fileSizeBytes, a percent in 0-100. -/
theorem uploadProgress_is_percent (b s : ℚ) (hs : 0 < s) (hb : 0 ≤ b) (hbs : b ≤ s) :
    uploadProgressValue b s = 100 * progressFractionSpec b s ∧
    0 ≤ uploadProgressValue b s ∧ uploadProgressValue b s ≤ 100 := by
  have hfrac : b / s ≤ 1 := (div_le_one hs).mpr hbs
  have hnn : 0 ≤ b / s := div_nonneg hb hs.le
  refine ⟨?_, ?_, ?_⟩
  · rw [uploadProgressValue, progressFractionSpec]; ring
  · rw [uploadProgressValue]
    exact mul_nonneg hnn (by norm_num)
  · rw [uploadProgressValue]
    linarith

/-- C1, witness for the amended theorem at bytesRead = 1, fileSize = 2. -/
theorem uploadProgress_is_percent_witness :
    uploadProgressValue 1 2 = 100 * progressFractionSpec 1 2 ∧
    0 ≤ uploadProgressValue 1 2 ∧ uploadProgressValue 1 2 ≤ 100 :=
  uploadProgress_is_percent 1 2 (by norm_num) (by norm_num) (by norm_num)

/-- C2: Logger.error called with an Error always puts errorMessage and
errorName into the metadata, so formatLogEntry takes the nonempty
metadata branch and the stack trace is dropped: at this input the
appended line carries no stack and no second line, although the entry
carries a stack. -/
theorem errorLog_drops_stack :
    errorLog .INFO "2024-01-01T00:00:00.000Z" "Video upload failed"
      (some ⟨"boom", "Error", some "Error: boom"⟩) [] =
      some "[2024-01-01T00:00:00.000Z] [ERROR] Video upload failed \x7b\"errorMessage\":\"boom\",\"errorName\":\"Error\"\x7d\n" := by
  decide

/-- C3: whenever the token cache file exists the interactive consent
flow is never triggered, and a cache parsing to a token bundle is
returned directly, whatever its expiry, with nothing written back. -/
theorem authorize_cached_skips_flow (env : AuthEnv) (h : env.cache ≠ CacheState.absent) :
    (authorize env).flowTriggered = false ∧
    ∀ c : Credentials, env.cache = CacheState.parsed c →
      authorize env = ⟨.ok c, false, false⟩ := by
  obtain ⟨cache, credsFile, flow⟩ := env
  cases cache <;> simp_all [authorize]

/-- C3, witness: a cached token bundle with an already-past expiry is
returned directly and the flow is not triggered. -/
theorem authorize_cached_skips_flow_witness :
    (authorize ⟨.parsed ⟨"at", "rt", 0⟩, false, .failure "cancelled"⟩).flowTriggered = false ∧
    ∀ c : Credentials,
      (⟨.parsed ⟨"at", "rt", 0⟩, false, .failure "cancelled"⟩ : AuthEnv).cache = CacheState.parsed c →
      authorize ⟨.parsed ⟨"at", "rt", 0⟩, false, .failure "cancelled"⟩ = ⟨.ok c, false, false⟩ :=
  authorize_cached_skips_flow ⟨.parsed ⟨"at", "rt", 0⟩, false, .failure "cancelled"⟩ (by decide)

/-- C4: the precondition checks of uploadVideo run in the order
existence, not-a-directory, is-a-regular-file; each failure logs the
file path via logUploadError and ends the call before the network call
(networkCalled = false), and only when all three pass does control
reach youtube.videos.insert. -/
theorem uploadPrecheck_order (p : String) (i : FileInfo) :
    uploadPrecheck p none = ⟨.failed .fileNotFound, [.uploadError p], false⟩ ∧
    (i.isDirectory = true →
      uploadPrecheck p (some i) = ⟨.failed .pathIsDirectory, [.uploadError p], false⟩) ∧
    (i.isDirectory = false → i.isFile = false →
      uploadPrecheck p (some i) = ⟨.failed .pathNotRegularFile, [.uploadError p], false⟩) ∧
    (i.isDirectory = false → i.isFile = true →
      uploadPrecheck p (some i) =
        ⟨.passed, [.fileValidation p true, .metadataValidation true, .uploadStart p], true⟩) := by
  obtain ⟨d, fl⟩ := i
  cases d <;> cases fl <;> simp [uploadPrecheck]

/-- C5, counterexample: a response whose identifier field is present
but the empty string does not resolve with that identifier as the
claim requires; the empty string is falsy, so the code rejects with
the no-video-id error. -/
theorem completion_emptyId_not_resolved :
    completionHandler none (some ⟨some ⟨some ""⟩⟩) =
      UploadCompletion.rejectedNoVideoId "Upload failed: No video ID returned" ∧
    completionHandler none (some ⟨some ⟨some ""⟩⟩) ≠ UploadCompletion.resolved "" := by
  decide

/-- C5, amended: an error rejects with the error object itself (code,
status and message preserved); a response whose identifier is absent at
any level or is the empty string rejects with the no-video-id error;
a response with a nonempty identifier resolves with exactly it. -/
theorem completionHandler_cases (e : ApiErr) (r : Option Response) (s : String) (hs : s ≠ "") :
    completionHandler (some e) r = .rejectedApi e ∧
    completionHandler none (some ⟨some ⟨some s⟩⟩) = .resolved s ∧
    completionHandler none none = .rejectedNoVideoId "Upload failed: No video ID returned" ∧
    completionHandler none (some ⟨none⟩) = .rejectedNoVideoId "Upload failed: No video ID returned" ∧
    completionHandler none (some ⟨some ⟨none⟩⟩) = .rejectedNoVideoId "Upload failed: No video ID returned" ∧
    completionHandler none (some ⟨some ⟨some ""⟩⟩) = .rejectedNoVideoId "Upload failed: No video ID returned" := by
  refine ⟨rfl, ?_, rfl, rfl, rfl, by decide⟩
  simp [completionHandler, jsTruthy, hs]

/-- C5, witness for the amended theorem at a concrete error and a
concrete nonempty identifier. -/
theorem completionHandler_cases_witness :
    completionHandler (some ⟨403, 403, "quota"⟩) none = .rejectedApi ⟨403, 403, "quota"⟩ ∧
    completionHandler none (some ⟨some ⟨some "abc123"⟩⟩) = .resolved "abc123" ∧
    completionHandler none none = .rejectedNoVideoId "Upload failed: No video ID returned" ∧
    completionHandler none (some ⟨none⟩) = .rejectedNoVideoId "Upload failed: No video ID returned" ∧
    completionHandler none (some ⟨some ⟨none⟩⟩) = .rejectedNoVideoId "Upload failed: No video ID returned" ∧
    completionHandler none (some ⟨some ⟨some ""⟩⟩) = .rejectedNoVideoId "Upload failed: No video ID returned" :=
  completionHandler_cases ⟨403, 403, "quota"⟩ none "abc123" (by decide)

/-- C6: for a progress fraction f in 0-1 the UPLOADING render shows
round(f*100/5) filled cells out of a fixed total of 20 and a percent
readout within 0-100; at f = 0.47 it shows 47 percent, 9 filled cells
and 11 empty cells. -/
theorem uploading_render_correct (f : ℚ) (h0 : 0 ≤ f) (h1 : f ≤ 1) :
    (renderUploading (100 * f)).filledCells = jsRound (f * 100 / 5) ∧
    (renderUploading (100 * f)).filledCells + (renderUploading (100 * f)).emptyCells = 20 ∧
    0 ≤ (renderUploading (100 * f)).percent ∧
    (renderUploading (100 * f)).percent ≤ 100 ∧
    renderUploading (100 * (47 / 100 : ℚ)) = ⟨47, 9, 11⟩ := by
  refine ⟨?_, ?_, ?_, ?_, ?_⟩
  · show jsRound (100 * f / 5) = jsRound (f * 100 / 5)
    rw [mul_comm 100 f]
  · show jsRound (100 * f / 5) + (20 - jsRound (100 * f / 5)) = 20
    ring
  · show (0:ℤ) ≤ Int.floor ((100 * f : ℚ) + 1/2)
    calc (0:ℤ) = Int.floor ((1:ℚ)/2) := by norm_num
      _ ≤ Int.floor ((100 * f : ℚ) + 1/2) := Int.floor_le_floor (by linarith)
  · show Int.floor ((100 * f : ℚ) + 1/2) ≤ 100
    calc Int.floor ((100 * f : ℚ) + 1/2) ≤ Int.floor ((201:ℚ)/2) := Int.floor_le_floor (by linarith)
      _ = 100 := by norm_num
  · have h47 : (100 * (47 / 100 : ℚ)) = 47 := by norm_num
    rw [h47]
    simp only [renderUploading, UploadingRender.mk.injEq]
    refine ⟨?_, ?_, ?_⟩ <;> norm_num [jsRound]

/-- C6, witness for the fraction 0.47. -/
theorem uploading_render_correct_witness :
    (renderUploading (100 * (47 / 100 : ℚ))).filledCells = jsRound ((47 / 100 : ℚ) * 100 / 5) ∧
    (renderUploading (100 * (47 / 100 : ℚ))).filledCells + (renderUploading (100 * (47 / 100 : ℚ))).emptyCells = 20 ∧
    0 ≤ (renderUploading (100 * (47 / 100 : ℚ))).percent ∧
    (renderUploading (100 * (47 / 100 : ℚ))).percent ≤ 100 ∧
    renderUploading (100 * (47 / 100 : ℚ)) = ⟨47, 9, 11⟩ :=
  uploading_render_correct (47 / 100) (by norm_num) (by norm_num)

/-- C7: submitting a blank (falsy or whitespace-only) file path routes
to the Error step with the fixed message and performs no file-system
call, whatever the file system holds. -/
theorem blank_filepath_routes_error (input : Option String) (fs : FsView)
    (h : jsTrim (input.getD "") = "") :
    handleFilePathSubmit input fs = ⟨.error, some "Please enter a file path", false⟩ := by
  unfold handleFilePathSubmit
  cases input with
  | none => simp [jsTruthy]
  | some s =>
    have h' : jsTrim s = "" := by simpa using h
    simp [jsTruthy, h']

/-- C7, witness at a whitespace-only input over a file system where the
path would in fact exist. -/
theorem blank_filepath_routes_error_witness :
    handleFilePathSubmit (some "   ") ⟨true, .resolved "/x"⟩ =
      ⟨.error, some "Please enter a file path", false⟩ :=
  blank_filepath_routes_error (some "   ") ⟨true, .resolved "/x"⟩ (by decide)

/-- C8: tag parsing splits on commas, trims each entry and discards the
entries empty after trimming, preserving order (the result is a
sublist of the trimmed pieces); "a, b ,c" parses to [a, b, c]. -/
theorem parseTags_spec :
    parseTags "a, b ,c" = ["a", "b", "c"] ∧
    (∀ s : String, (parseTags s).Sublist ((jsSplitComma s).map jsTrim)) ∧
    (∀ s : String, ∀ t ∈ parseTags s, t ≠ "") := by
  refine ⟨by decide, fun s => List.filter_sublist _, fun s t ht => ?_⟩
  have := (List.mem_filter.mp ht).2
  simpa using this

/-- C9: confirming the upload with a falsy title or file path only sets
the error message to the fixed text: the step, file path, title,
progress and loading flag are unchanged, and the authorize/uploadVideo
pipeline is not started. -/
theorem upload_gate_blocks (s : AppState)
    (h : jsTruthy s.title = false ∨ jsTruthy s.filePath = false) :
    handleUploadGate s =
      ⟨⟨s.step, s.filePath, s.title, s.progress, s.loading, some "Missing required fields"⟩, false⟩ := by
  unfold handleUploadGate
  rcases h with h | h <;> simp [h]

/-- C9, witness at the ConfirmUpload step with an empty title. -/
theorem upload_gate_blocks_witness :
    handleUploadGate ⟨.confirmUpload, some "/v.mp4", some "", 0, false, none⟩ =
      ⟨⟨.confirmUpload, some "/v.mp4", some "", 0, false, some "Missing required fields"⟩, false⟩ :=
  upload_gate_blocks ⟨.confirmUpload, some "/v.mp4", some "", 0, false, none⟩ (Or.inl (by decide))

/-- C10: archiveOldLogs moves exactly the files whose age strictly
exceeds daysToKeep and whose name starts with the youtube-uploader-
prefix string; every other file of the logs directory stays in place. -/
theorem archive_moves_exactly (d : ℚ) (files : List DirFile) (f : DirFile) :
    (f ∈ (archiveOldLogs d files).1 ↔
      f ∈ files ∧ d < f.ageDays ∧ f.name.startsWith "youtube-uploader-" = true) ∧
    (f ∈ (archiveOldLogs d files).2 ↔
      f ∈ files ∧ ¬(d < f.ageDays ∧ f.name.startsWith "youtube-uploader-" = true)) := by
  refine ⟨?_, ?_⟩
  · simp [archiveOldLogs, shouldArchive, List.mem_filter, Bool.and_eq_true,
      decide_eq_true_eq, and_assoc]
  · simp [archiveOldLogs, shouldArchive, List.mem_filter, Bool.and_eq_true,
      decide_eq_true_eq]
    intro _
    constructor
    · rintro (h | h) hlt
      · exact absurd hlt (not_lt.mpr h)
      · exact h
    · intro h
      rcases lt_or_le d f.ageDays with hlt | hle
      · exact Or.inr (h hlt)
      · exact Or.inl hle
